import Mathlib

/-!
Shallow embedding of the wallet-signature authentication service
(`src/lambda/*` and the `utils-module` library) and proofs about its
specified behaviour.

Modelling conventions:
- DynamoDB's user table is a `List User`; the wallet secondary index is a
  filter on the `WalletId` field.  A `put` replaces the item with the same
  primary key `UserId` (or appends when absent).
- Clock readings (`moment()`) are Unix-second `Nat` values passed in
  explicitly; `moment().add(m, 'm').format('X')` is `now + m * 60` and
  `moment().add(d, 'd').format('X')` is `now + d * 86400`.  ISO-formatted
  creation/login times are modelled by the same `Nat` clock reading.
- Randomness (`createNonce`, `createUserId`) is passed in as explicit
  fresh values.
- The external `recoverPersonalSignature` routine is an abstract parameter
  `recover : String → String → String` taking the hex message data and the
  signature and returning the recovered address.
- A JWT is modelled by its payload together with a well-signedness tag:
  `Token.signed d` is a token correctly signed by the KMS key with payload
  `d`; `Token.malformed` covers everything `jwt.verify` rejects as a
  `JsonWebTokenError`.
-/

/-- ASCII lower-casing of a single character, as JavaScript
`String.prototype.toLowerCase` acts on the ASCII range used by hex wallet
addresses. -/
def charLower (c : Char) : Char :=
  if 'A' ≤ c && c ≤ 'Z' then Char.ofNat (c.toNat + 32) else c

/-- JavaScript `walletId.toLowerCase()` on ASCII strings. -/
def jsToLower (s : String) : String := ⟨s.data.map charLower⟩

/-- Internal error values thrown inside the lambda handlers:
`ValidationError` (lib/errors.js, statusCode 400), the jwtUtils
`TokenExpiredError` (statusCode 400), and plain `Error` objects carrying no
`statusCode` (defaulted to 500 at the handler boundary). -/
inductive Err where
  | validationError (msg : String)
  | tokenExpiredError
  | internalError (msg : String)
deriving Repr, DecidableEq

/-- The `statusCode` read off an internal error at a handler's catch block
(`const { statusCode = 500 } = err`). -/
def Err.statusCode : Err → Nat
  | .validationError _ => 400
  | .tokenExpiredError => 400
  | .internalError _ => 500

/-- The `message` carried by an internal error (`ValidationError` prepends
a fixed marker, lib/errors.js). -/
def Err.message : Err → String
  | .validationError msg => "Validation Error: " ++ msg
  | .tokenExpiredError => "Authentication token has expired"
  | .internalError msg => msg

/-- The structured `ApiError` envelope thrown back to API Gateway
(lib/errors.js): `{success:false, statusCode, message, requestId}`. -/
structure ApiError where
  success : Bool
  statusCode : Nat
  message : String
  requestId : String
deriving Repr, DecidableEq

/-- User record as stored in the DynamoDB user table (authUtils.js).
`CreatedTime` and `LastLogin` are ISO strings in the source, modelled by
the Unix-second clock reading at which they were written. -/
structure User where
  UserId : String
  WalletId : String
  Nonce : String
  CreatedTime : Nat
  LastLogin : Nat
  Verified : Bool
  ExpiryTime : Nat
deriving Repr, DecidableEq

/-- `isValidEthSignature` (web3Utils.js): recovers the signer address from
the message and signature via `recoverPersonalSignature` and compares it to
the claimed `walletId` with strict (case-sensitive) string equality. -/
def isValidEthSignature (recover : String → String → String)
    (walletId message signature : String) : Bool :=
  recover message signature == walletId

/-- The comparison the specification describes for `isValidEthSignature`:
the recovered address is compared to `walletId` case-normalized.  Stated
for refinement against `isValidEthSignature`, which the source defines with
strict equality. -/
def isValidEthSignatureSpec (recover : String → String → String)
    (walletId message signature : String) : Bool :=
  jsToLower (recover message signature) == jsToLower walletId

/-- `getUserByWalletId` (authUtils.js): queries the wallet index with the
lower-cased wallet id; throws `ValidationError` when no record matches and
a plain `Error` when more than one does. -/
def getUserByWalletId (store : List User) (walletId : String) :
    Except Err User :=
  let users := store.filter (fun u => u.WalletId == jsToLower walletId)
  match users with
  | [] => .error (.validationError
      "We could not find that walletId. Please create a new user.")
  | [u] => .ok u
  | _ :: _ :: _ => .error (.internalError
      "More than one UserId exists for the walletId.")

/-- `userExistsByWalletId` (authUtils.js): `true` when the lookup succeeds,
`false` when it fails with a `ValidationError`, and any other error is
rethrown. -/
def userExistsByWalletId (store : List User) (walletId : String) :
    Except Err Bool :=
  match getUserByWalletId store walletId with
  | .ok _ => .ok true
  | .error (.validationError _) => .ok false
  | .error e => .error e

/-- DynamoDB `put` on the user table: full overwrite of the item with the
same primary key `UserId`, insertion when absent. -/
def putUser (store : List User) (item : User) : List User :=
  if store.any (fun u => u.UserId == item.UserId) then
    store.map (fun u => if u.UserId == item.UserId then item else u)
  else store ++ [item]

/-- `updateLoginByWalletId` (authUtils.js): looks the user up by wallet id,
then updates `LastLogin` and `Nonce` on the record keyed by its `UserId`.
Returns the fresh nonce together with the updated table. -/
def updateLoginByWalletId (store : List User) (now : Nat)
    (freshNonce : String) (walletId : String) :
    Except Err (String × List User) :=
  match getUserByWalletId store walletId with
  | .error e => .error e
  | .ok u =>
    let store2 := store.map fun v =>
      if v.UserId == u.UserId then
        { v with LastLogin := now, Nonce := freshNonce }
      else v
    .ok (freshNonce, store2)

/-- Environment configuration read by jwtUtils.js: issuer, and the two
expiry windows in minutes (`REFRESH_TOKEN_TIME`, `AUTH_TOKEN_TIME`). -/
structure JwtConfig where
  iss : String
  refreshTime : Nat
  authTime : Nat
deriving Repr, DecidableEq

/-- JWT payload claims (`JwtData` typedef in jwtUtils.js). -/
structure JwtData where
  iss : String
  sub : String
  admin : Bool
  refresh : Bool
  iat : Nat
  exp : Nat
deriving Repr, DecidableEq

/-- A bearer token as seen by `jwt.verify`: either well signed with a
given payload, or anything `jwt.verify` rejects with `JsonWebTokenError`
(garbage, bad signature, wrong algorithm). -/
inductive Token where
  | malformed
  | signed (d : JwtData)
deriving Repr, DecidableEq

/-- `expTime` (jwtUtils.js): Unix timestamp `mins` minutes in the future. -/
def expTime (now mins : Nat) : Nat := now + mins * 60

/-- `createJwt` (jwtUtils.js): builds the payload with the issuer, subject,
admin and refresh flags, issue time, and an expiry chosen from the refresh
or auth window.  The base64url encoding and KMS signing of the payload are
represented by `Token.signed`. -/
def createJwt (cfg : JwtConfig) (now : Nat) (userId : String)
    (isAdmin isRefresh : Bool) : JwtData :=
  { iss := cfg.iss
    sub := userId
    admin := isAdmin
    refresh := isRefresh
    iat := now
    exp := if isRefresh then expTime now cfg.refreshTime
           else expTime now cfg.authTime }

/-- `verifyJwt` (jwtUtils.js): `jwt.verify` against the KMS public key.
A malformed token raises `JsonWebTokenError`, rethrown as a
`ValidationError`; a well-signed token whose `exp` is not in the future
raises `TokenExpiredError`. -/
def verifyJwt (now : Nat) (t : Token) : Except Err JwtData :=
  match t with
  | .malformed => .error (.validationError "jwt malformed")
  | .signed d => if d.exp ≤ now then .error .tokenExpiredError else .ok d

/-- `validateAuthToken` (jwtUtils.js): verifies the JWT and rejects refresh
tokens presented as auth tokens. -/
def validateAuthToken (now : Nat) (t : Token) : Except Err JwtData :=
  match verifyJwt now t with
  | .error e => .error e
  | .ok d =>
    if d.refresh then .error (.validationError "Invalid Auth token")
    else .ok d

/-- `createAuthToken` (jwtUtils.js): requires a non-empty userId, then
creates a non-refresh JWT (isRefresh defaults to false in `createJwt`). -/
def createAuthToken (cfg : JwtConfig) (now : Nat) (userId : String)
    (isAdmin : Bool) : Except Err JwtData :=
  if userId == "" then .error (.internalError "Missing userId parameter")
  else .ok (createJwt cfg now userId isAdmin false)

/-- `createRefreshToken` (jwtUtils.js): requires a non-empty userId, then
creates a refresh JWT (isAdmin defaults to false in `createJwt`). -/
def createRefreshToken (cfg : JwtConfig) (now : Nat) (userId : String) :
    Except Err JwtData :=
  if userId == "" then .error (.internalError "Missing userId parameter")
  else .ok (createJwt cfg now userId false true)

/-- The refresh cookie: `cookie.serialize('token', refreshToken, ...)` and
`cookie.parse` are inverse on the `token` attribute; the cookie is modelled
by that attribute (`none` when the parsed cookie has no `token` key). -/
structure Cookie where
  token : Option Token
deriving Repr, DecidableEq

/-- `createRefreshCookie` (jwtUtils.js): serializes a fresh refresh token
into the `token` cookie attribute. -/
def createRefreshCookie (cfg : JwtConfig) (now : Nat) (userId : String) :
    Except Err Cookie :=
  match createRefreshToken cfg now userId with
  | .error e => .error e
  | .ok d => .ok { token := some (.signed d) }

/-- `validateRefreshCookie` (jwtUtils.js): parses the cookie, verifies the
JWT, rejects non-refresh tokens, and returns the subject userId. -/
def validateRefreshCookie (now : Nat) (c : Cookie) : Except Err String :=
  match c.token with
  | none => .error (.validationError "Not our cookie")
  | some t =>
    match verifyJwt now t with
    | .error e => .error e
    | .ok d =>
      if !d.refresh then .error (.validationError "Invalid refresh token")
      else .ok d.sub

/-- The status-code mapping applied in the catch blocks of the login,
refresh-token and logout handlers:
`const returnCode = (statusCode === 400) ? 401 : statusCode`. -/
def authPathReturnCode (statusCode : Nat) : Nat :=
  if statusCode == 400 then 401 else statusCode

/-- The catch block of the login, refresh-token and logout handlers: wraps
an internal error into the `ApiError` envelope, remapping status 400 to
401. -/
def toApiErrorAuthPath (requestId : String) (e : Err) : ApiError :=
  { success := false
    statusCode := authPathReturnCode e.statusCode
    message := e.message
    requestId := requestId }

/-- The catch block of the get-nonce, get-user and create-user handlers:
wraps an internal error into the `ApiError` envelope with the status code
preserved. -/
def toApiErrorPlain (requestId : String) (e : Err) : ApiError :=
  { success := false
    statusCode := e.statusCode
    message := e.message
    requestId := requestId }

/-- Result body returned by `createUser` (authUtils.js) on success. -/
structure CreateUserResult where
  userId : String
  walletId : String
  nonce : String
deriving Repr, DecidableEq

/-- `createUser` (authUtils.js): creates a new `Unverified` user, or — when
`verify` is set — checks the signature against the sign message built from
the stored nonce and rewrites the record as `Verified` with a full `put`.
The table is threaded through explicitly; every error branch returns it
unchanged.  `freshNonce` stands for `createNonce()` and `freshUserId` for
`createUserId()`. -/
def createUser (userExpiry : Nat) (recover : String → String → String)
    (store : List User) (now : Nat) (freshNonce freshUserId : String)
    (walletId : String) (verify : Bool) (signature signPfx : String) :
    Except Err CreateUserResult × List User :=
  if walletId == "" then (.error (.internalError "Missing walletId"), store)
  else if verify && (signature == "" || signPfx == "") then
    (.error (.validationError
      "Signature and signPrefix are required to verify a user"), store)
  else match userExistsByWalletId store walletId with
  | .error e => (.error e, store)
  | .ok userExists =>
    if userExists && !verify then
      (.error (.validationError "WalletId belongs to an existing user"), store)
    else if verify && !userExists then
      (.error (.validationError "User does not exist to verify"), store)
    else
      let messageE : Except Err String :=
        if verify then
          match getUserByWalletId store walletId with
          | .error e => .error e
          | .ok u => .ok (signPfx ++ u.Nonce)
        else .ok ""
      match messageE with
      | .error e => (.error e, store)
      | .ok message =>
        let verified := verify &&
          isValidEthSignature recover walletId message signature
        if verify && !verified then
          (.error (.validationError
            "Signature is not valid - verification failed"), store)
        else
          let expiryTime :=
            if verified then now + userExpiry * 86400 else now + 1 * 86400
          let userIdE : Except Err String :=
            if userExists then
              match getUserByWalletId store walletId with
              | .error e => .error e
              | .ok u => .ok u.UserId
            else .ok freshUserId
          match userIdE with
          | .error e => (.error e, store)
          | .ok userId =>
            let item : User :=
              { UserId := userId
                WalletId := jsToLower walletId
                Verified := verified
                Nonce := freshNonce
                CreatedTime := now
                LastLogin := now
                ExpiryTime := expiryTime }
            (.ok { userId := userId
                   walletId := jsToLower walletId
                   nonce := freshNonce }, putUser store item)

/-- Result body returned by the login and refresh-token handlers on
success. -/
structure AuthResult where
  userId : String
  authToken : JwtData
  cookie : Cookie
  requestId : String
deriving Repr, DecidableEq

/-- The login handler (lambda/login/index.js): requires the `LOGIN_PREFIX`
environment value (`noncePfx`) and non-empty walletId and signature; looks
the user up by wallet, rejects unverified accounts, checks the signature
over the login-prefixed stored nonce, rotates the nonce, and issues an auth
token and a refresh cookie.  Errors are wrapped by the catch block with the
400-to-401 remap. -/
def loginHandler (noncePfx : String) (cfg : JwtConfig)
    (recover : String → String → String) (store : List User) (now : Nat)
    (freshNonce : String) (walletId signature requestId : String) :
    Except ApiError (AuthResult × List User) :=
  let r : Except Err (AuthResult × List User) :=
    if noncePfx == "" then .error (.internalError "Missing env variable")
    else if walletId == "" then .error (.validationError "Missing walletId")
    else if signature == "" then .error (.validationError "Missing signature")
    else match getUserByWalletId store walletId with
    | .error e => .error e
    | .ok u =>
      if !u.Verified then
        .error (.validationError "User account is not verified")
      else
        let message := noncePfx ++ u.Nonce
        if !(isValidEthSignature recover walletId message signature) then
          .error (.validationError "Invalid signature, access denied")
        else match updateLoginByWalletId store now freshNonce walletId with
        | .error e => .error e
        | .ok (_, store2) =>
          match createAuthToken cfg now u.UserId false with
          | .error e => .error e
          | .ok auth =>
            match createRefreshCookie cfg now u.UserId with
            | .error e => .error e
            | .ok ck =>
              .ok ({ userId := u.UserId
                     authToken := auth
                     cookie := ck
                     requestId := requestId }, store2)
  match r with
  | .ok v => .ok v
  | .error e => .error (toApiErrorAuthPath requestId e)

/-- The refresh-token handler (the refresh lambda): requires a non-empty
cookie parameter (`none` models the empty string), validates the refresh
cookie, and issues a new auth token and a new refresh cookie for the same
userId.  Errors are wrapped by the catch block with the 400-to-401
remap. -/
def refreshHandler (cfg : JwtConfig) (now : Nat)
    (cookieParam : Option Cookie) (requestId : String) :
    Except ApiError AuthResult :=
  let r : Except Err AuthResult :=
    match cookieParam with
    | none => .error (.validationError "Missing cookie")
    | some c =>
      match validateRefreshCookie now c with
      | .error e => .error e
      | .ok userId =>
        if userId == "" then
          .error (.internalError "Error getting userId from token")
        else match createAuthToken cfg now userId false with
        | .error e => .error e
        | .ok auth =>
          match createRefreshCookie cfg now userId with
          | .error e => .error e
          | .ok ck =>
            .ok { userId := userId
                  authToken := auth
                  cookie := ck
                  requestId := requestId }
  match r with
  | .ok v => .ok v
  | .error e => .error (toApiErrorAuthPath requestId e)

/-- `createLogoutCookie` (jwtUtils.js): a `token=logout` cookie with
`maxAge` 0, i.e. it carries no verifiable token. -/
def createLogoutCookie : Cookie := { token := some .malformed }

/-- Result body returned by the logout handler on success. -/
structure LogoutResult where
  userId : String
  requestId : String
  cookie : Cookie
deriving Repr, DecidableEq

/-- The logout handler (lambda/get-user, second handler): validates the
refresh cookie and returns the immediately-expired logout cookie.  Errors
are wrapped with the 400-to-401 remap. -/
def logoutHandler (now : Nat) (cookieParam : Option Cookie)
    (requestId : String) : Except ApiError LogoutResult :=
  let r : Except Err LogoutResult :=
    match cookieParam with
    | none => .error (.validationError "Missing cookie")
    | some c =>
      match validateRefreshCookie now c with
      | .error e => .error e
      | .ok userId =>
        if userId == "" then
          .error (.internalError "Error getting userId from token")
        else
          .ok { userId := userId
                requestId := requestId
                cookie := createLogoutCookie }
  match r with
  | .ok v => .ok v
  | .error e => .error (toApiErrorAuthPath requestId e)

/-- Result body returned by the get-nonce handler on success. -/
structure GetNonceResult where
  isLogin : Bool
  nonce : String
  userId : String
  verified : Bool
deriving Repr, DecidableEq

/-- The get-nonce handler: looks the user up by wallet and returns the
stored nonce prefixed with `LOGIN_PREFIX` (`loginPfx`) when the `login`
query parameter is the string `"true"`, and with `SIGN_PREFIX` (`signPfx`)
otherwise.  Errors are wrapped with the status code preserved. -/
def getNonceHandler (signPfx loginPfx : String) (store : List User)
    (walletId login requestId : String) : Except ApiError GetNonceResult :=
  let r : Except Err GetNonceResult :=
    let isLogin := login == "true"
    if walletId == "" then .error (.validationError "Missing walletId")
    else match getUserByWalletId store walletId with
    | .error e => .error e
    | .ok u =>
      .ok { isLogin := isLogin
            nonce := if isLogin then loginPfx ++ u.Nonce
                     else signPfx ++ u.Nonce
            userId := u.UserId
            verified := u.Verified }
  match r with
  | .ok v => .ok v
  | .error e => .error (toApiErrorPlain requestId e)

/-- The IAM policy decision returned by the authorizer to API Gateway:
`principalId`, the policy `Effect`, and the forwarded `isAdmin` context. -/
structure AuthPolicy where
  principalId : String
  effect : String
  isAdmin : Bool
deriving Repr, DecidableEq

/-- The custom-authorizer handler (lambda/authorizer/index.js): validates
the bearer token as an auth token; any validation failure is caught and
yields a Deny policy for principal `Unknown`, success yields an Allow
policy for the token's subject, forwarding the admin claim
(`(data.admin) || false`). -/
def authorizerHandler (now : Nat) (token : Token) : AuthPolicy :=
  match validateAuthToken now token with
  | .ok d => { principalId := d.sub, effect := "Allow", isAdmin := d.admin }
  | .error _ => { principalId := "Unknown", effect := "Deny", isAdmin := false }

theorem charLower_not_upper (c : Char) :
    ('A' ≤ charLower c && charLower c ≤ 'Z') = false := by
  unfold charLower
  split
  case isTrue h =>
    rw [Bool.and_eq_true] at h
    obtain ⟨h1, h2⟩ := h
    have hA : 65 ≤ c.toNat := by
      have := decide_eq_true_eq.mp h1
      rw [Char.le_def, UInt32.le_def] at this
      exact this
    have hZ : c.toNat ≤ 90 := by
      have := decide_eq_true_eq.mp h2
      rw [Char.le_def, UInt32.le_def] at this
      exact this
    set n := c.toNat with hn
    interval_cases n <;> decide
  case isFalse h =>
    simpa using h

theorem charLower_idem (c : Char) :
    charLower (charLower c) = charLower c := by
  have h := charLower_not_upper c
  conv_lhs => rw [charLower]
  simp [h]

theorem jsToLower_idem (s : String) : jsToLower (jsToLower s) = jsToLower s := by
  unfold jsToLower
  simp only
  rw [List.map_map]
  congr 1
  apply List.map_congr_left
  intro c _
  exact charLower_idem c

/-- C9: user lookup by wallet id is insensitive to the letter case of the
input: `getUserByWalletId` queries the store with the lower-cased wallet
key, so looking up `w` returns the same record (or fails the same way) as
looking up `w.toLowerCase()`. -/
theorem getUserByWalletId_case_insensitive (store : List User) (w : String) :
    getUserByWalletId store w = getUserByWalletId store (jsToLower w) := by
  unfold getUserByWalletId
  rw [jsToLower_idem]

/-- C2 counterexample: `isValidEthSignature` compares the recovered address
to the claimed walletId with strict case-sensitive equality, so presenting
the correct address in a different letter case fails even though the
case-normalized comparison described by the claim would succeed. -/
theorem isValidEthSignature_case_counterexample :
    isValidEthSignature (fun _ _ => "0xab") "0xAB" "m" "s" = false ∧
    isValidEthSignatureSpec (fun _ _ => "0xab") "0xAB" "m" "s" = true := by
  constructor <;> decide

/-- C2 amended: `isValidEthSignature` returns true exactly when the address
recovered from the message and signature equals the claimed walletId by
strict (case-sensitive) string equality. -/
theorem isValidEthSignature_exact_match (recover : String → String → String)
    (walletId message signature : String) :
    isValidEthSignature recover walletId message signature = true ↔
      recover message signature = walletId := by
  simp [isValidEthSignature]

/-- C6: the authorizer's decision is total and two-valued: any validation
failure yields a Deny policy with principalId `Unknown` and admin false,
and a validation success yields an Allow policy whose principalId is the
token's subject and whose context carries the token's admin claim. -/
theorem authorizer_decision (now : Nat) (t : Token) :
    (∀ e, validateAuthToken now t = .error e →
      authorizerHandler now t =
        { principalId := "Unknown", effect := "Deny", isAdmin := false }) ∧
    (∀ d, validateAuthToken now t = .ok d →
      authorizerHandler now t =
        { principalId := d.sub, effect := "Allow", isAdmin := d.admin }) := by
  constructor
  · intro e he
    unfold authorizerHandler
    rw [he]
  · intro d hd
    unfold authorizerHandler
    rw [hd]

/-- C6 witness: an expired access token is denied with principal
`Unknown`. -/
theorem authorizer_decision_witness :
    validateAuthToken 5
        (.signed { iss := "i", sub := "u", admin := false, refresh := false,
                   iat := 0, exp := 3 }) = .error .tokenExpiredError ∧
    authorizerHandler 5
        (.signed { iss := "i", sub := "u", admin := false, refresh := false,
                   iat := 0, exp := 3 }) =
      { principalId := "Unknown", effect := "Deny", isAdmin := false } :=
  ⟨rfl,
   (authorizer_decision 5
      (.signed { iss := "i", sub := "u", admin := false, refresh := false,
                 iat := 0, exp := 3 })).1 .tokenExpiredError rfl⟩

/-- C1: for every stored user record whose Verified flag is false, the
login handler fails with an error for every signature input (including one
that is valid for the stored nonce) — it never returns a success result
with tokens. -/
theorem login_fails_unverified
    (noncePfx : String) (cfg : JwtConfig)
    (recover : String → String → String) (store : List User) (now : Nat)
    (freshNonce : String) (walletId signature requestId : String) (u : User)
    (hu : getUserByWalletId store walletId = .ok u)
    (hv : u.Verified = false) :
    ∃ a, loginHandler noncePfx cfg recover store now freshNonce
        walletId signature requestId = .error a := by
  unfold loginHandler
  by_cases h1 : noncePfx = ""
  · simp [h1]
  · by_cases h2 : walletId = ""
    · simp [h1, h2]
    · by_cases h3 : signature = ""
      · simp [h1, h2, h3]
      · simp [h1, h2, h3, hu, hv]

/-- C1 witness: an unverified record rejects a login even when the
recovered address matches the wallet. -/
theorem login_fails_unverified_witness :
    getUserByWalletId
        [{ UserId := "U1", WalletId := "0xaa", Nonce := "n1",
           CreatedTime := 0, LastLogin := 0, Verified := false,
           ExpiryTime := 99 }] "0xaa" =
      .ok { UserId := "U1", WalletId := "0xaa", Nonce := "n1",
            CreatedTime := 0, LastLogin := 0, Verified := false,
            ExpiryTime := 99 } ∧
    ∃ a, loginHandler "login:" { iss := "i", refreshTime := 60, authTime := 5 }
        (fun _ _ => "0xaa")
        [{ UserId := "U1", WalletId := "0xaa", Nonce := "n1",
           CreatedTime := 0, LastLogin := 0, Verified := false,
           ExpiryTime := 99 }] 0 "n2" "0xaa" "sig" "r" = .error a :=
  ⟨rfl,
   login_fails_unverified "login:" { iss := "i", refreshTime := 60, authTime := 5 }
     (fun _ _ => "0xaa")
     [{ UserId := "U1", WalletId := "0xaa", Nonce := "n1",
        CreatedTime := 0, LastLogin := 0, Verified := false,
        ExpiryTime := 99 }] 0 "n2" "0xaa" "sig" "r"
     { UserId := "U1", WalletId := "0xaa", Nonce := "n1",
       CreatedTime := 0, LastLogin := 0, Verified := false,
       ExpiryTime := 99 } rfl rfl⟩

/-- C7: get-nonce fails with the not-found `ValidationError` surfaced with
status code 400 when no record matches the wallet, and for an existing
record returns the stored nonce prefixed with the login prefix exactly when
the login purpose is requested and the sign prefix otherwise — the prefix
choice depends only on the requested purpose, never on the stored user
state. -/
theorem getNonce_spec (signPfx loginPfx : String) (store : List User)
    (walletId login rid : String) (hw : ¬ walletId = "") :
    (store.filter (fun u => u.WalletId == jsToLower walletId) = [] →
      getNonceHandler signPfx loginPfx store walletId login rid =
        .error { success := false, statusCode := 400,
                 message := "Validation Error: We could not find that walletId. Please create a new user.",
                 requestId := rid }) ∧
    (∀ u, getUserByWalletId store walletId = .ok u →
      getNonceHandler signPfx loginPfx store walletId login rid =
        .ok { isLogin := login == "true",
              nonce := (if login == "true" then loginPfx else signPfx) ++ u.Nonce,
              userId := u.UserId, verified := u.Verified }) := by
  constructor
  · intro hempty
    unfold getNonceHandler getUserByWalletId
    simp only [hempty]
    simp [hw, toApiErrorPlain, Err.statusCode, Err.message]
  · intro u hu
    unfold getNonceHandler
    simp only [hu]
    by_cases hl : login = "true"
    · simp [hw, hl]
    · simp [hw, hl]

/-- C7 witness: a missing wallet yields the 400 not-found envelope, and a
stored record yields the purpose-chosen prefix. -/
theorem getNonce_spec_witness :
    ¬ ("0xaa" : String) = "" ∧
    getNonceHandler "sign:" "login:" [] "0xaa" "true" "r" =
      .error { success := false, statusCode := 400,
               message := "Validation Error: We could not find that walletId. Please create a new user.",
               requestId := "r" } :=
  ⟨by decide,
   (getNonce_spec "sign:" "login:" [] "0xaa" "true" "r" (by decide)).1 rfl⟩

/-- C3: token round-trip — an auth token created for userId `u` validates
as an auth token with subject `u`, admin false and refresh false; a refresh
token for `u` validates as a refresh cookie (its refresh claim is true);
and each kind presented as the other fails with the invalid-token-kind
`ValidationError` rather than succeeding. -/
theorem token_round_trip (cfg : JwtConfig) (now : Nat) (u : String)
    (hu : ¬ u = "") (ha : 0 < cfg.authTime) (hr : 0 < cfg.refreshTime) :
    (createAuthToken cfg now u false = .ok (createJwt cfg now u false false) ∧
     validateAuthToken now (.signed (createJwt cfg now u false false)) =
       .ok { iss := cfg.iss, sub := u, admin := false, refresh := false,
             iat := now, exp := now + cfg.authTime * 60 }) ∧
    (createRefreshToken cfg now u = .ok (createJwt cfg now u false true) ∧
     (createJwt cfg now u false true).refresh = true ∧
     validateRefreshCookie now
         { token := some (.signed (createJwt cfg now u false true)) } =
       .ok u) ∧
    validateAuthToken now (.signed (createJwt cfg now u false true)) =
      .error (.validationError "Invalid Auth token") ∧
    validateRefreshCookie now
        { token := some (.signed (createJwt cfg now u false false)) } =
      .error (.validationError "Invalid refresh token") := by
  have ha' : cfg.authTime ≠ 0 := Nat.pos_iff_ne_zero.mp ha
  have hr' : cfg.refreshTime ≠ 0 := Nat.pos_iff_ne_zero.mp hr
  refine ⟨⟨?_, ?_⟩, ⟨?_, ?_, ?_⟩, ?_, ?_⟩ <;>
    simp [createAuthToken, createRefreshToken, validateAuthToken,
          validateRefreshCookie, verifyJwt, createJwt, expTime, hu,
          ha', hr']

/-- C3 witness: round-trip at a concrete configuration. -/
theorem token_round_trip_witness :
    ¬ ("u1" : String) = "" ∧ 0 < 5 ∧ 0 < 60 ∧
    validateAuthToken 0
        (.signed (createJwt { iss := "i", refreshTime := 60, authTime := 5 }
          0 "u1" false false)) =
      .ok { iss := "i", sub := "u1", admin := false, refresh := false,
            iat := 0, exp := 0 + 5 * 60 } :=
  ⟨by decide, by decide, by decide,
   (token_round_trip { iss := "i", refreshTime := 60, authTime := 5 } 0 "u1"
     (by decide) (by decide) (by decide)).1.2⟩

/-- Helper: a successful wallet lookup returns a record whose stored
`WalletId` is the lower-cased query key. -/
theorem getUserByWalletId_ok_wallet (store : List User) (w : String)
    (u : User) (h : getUserByWalletId store w = .ok u) :
    u.WalletId = jsToLower w := by
  simp only [getUserByWalletId] at h
  split at h
  · exact absurd h (by simp)
  · rename_i x heq
    have hx : x ∈ store.filter (fun v => v.WalletId == jsToLower w) := by
      rw [heq]
      exact List.mem_singleton_self x
    have hpx := List.of_mem_filter hx
    have hxu : x = u := by
      simpa using h
    rw [← hxu]
    exact beq_iff_eq.mp hpx
  · exact absurd h (by simp)

/-- C4: with `verify=true`, a signature that does not verify against the
sign-prefixed stored nonce fails with the invalid-signature
`ValidationError` and the store is returned exactly unchanged; with
`verify=true` and no existing record the call fails without creating a
record. -/
theorem createUser_verify_failure_no_write
    (userExpiry : Nat) (recover : String → String → String)
    (store : List User) (now : Nat) (freshNonce freshUserId : String)
    (walletId signature signPfx : String)
    (hw : ¬ walletId = "") (hs : ¬ signature = "") (hp : ¬ signPfx = "") :
    (∀ u, getUserByWalletId store walletId = .ok u →
      ¬ recover (signPfx ++ u.Nonce) signature = walletId →
      createUser userExpiry recover store now freshNonce freshUserId
          walletId true signature signPfx =
        (.error (.validationError
          "Signature is not valid - verification failed"), store)) ∧
    (∀ m, getUserByWalletId store walletId = .error (.validationError m) →
      createUser userExpiry recover store now freshNonce freshUserId
          walletId true signature signPfx =
        (.error (.validationError "User does not exist to verify"), store)) := by
  constructor
  · intro u hu hsig
    unfold createUser userExistsByWalletId
    simp [hw, hs, hp, hu, isValidEthSignature, hsig]
  · intro m hm
    unfold createUser userExistsByWalletId
    simp [hw, hs, hp, hm]

/-- C4 witness: an invalid signature against an existing record leaves the
store untouched, and verify against an absent record fails. -/
theorem createUser_verify_failure_no_write_witness :
    getUserByWalletId
        [{ UserId := "U1", WalletId := "0xaa", Nonce := "n1",
           CreatedTime := 0, LastLogin := 0, Verified := false,
           ExpiryTime := 99 }] "0xaa" =
      .ok { UserId := "U1", WalletId := "0xaa", Nonce := "n1",
            CreatedTime := 0, LastLogin := 0, Verified := false,
            ExpiryTime := 99 } ∧
    createUser 36500 (fun _ _ => "0xzz")
        [{ UserId := "U1", WalletId := "0xaa", Nonce := "n1",
           CreatedTime := 0, LastLogin := 0, Verified := false,
           ExpiryTime := 99 }] 7 "n2" "U2" "0xaa" true "sig" "sign:" =
      (.error (.validationError
        "Signature is not valid - verification failed"),
       [{ UserId := "U1", WalletId := "0xaa", Nonce := "n1",
          CreatedTime := 0, LastLogin := 0, Verified := false,
          ExpiryTime := 99 }]) :=
  ⟨rfl,
   (createUser_verify_failure_no_write 36500 (fun _ _ => "0xzz")
      [{ UserId := "U1", WalletId := "0xaa", Nonce := "n1",
         CreatedTime := 0, LastLogin := 0, Verified := false,
         ExpiryTime := 99 }] 7 "n2" "U2" "0xaa" "sig" "sign:"
      (by decide) (by decide) (by decide)).1
     { UserId := "U1", WalletId := "0xaa", Nonce := "n1",
       CreatedTime := 0, LastLogin := 0, Verified := false,
       ExpiryTime := 99 } rfl (by decide)⟩

/-- C10: a successful `verify=true` call against an existing record
performs a full put that preserves the `UserId` and the lower-cased
`WalletId` but resets `CreatedTime` to the current time and writes a fresh
`Nonce`, `LastLogin`, `Verified=true` and a long `ExpiryTime`. -/
theorem createUser_verify_success_rewrite
    (userExpiry : Nat) (recover : String → String → String)
    (store : List User) (now : Nat) (freshNonce freshUserId : String)
    (walletId signature signPfx : String) (u : User)
    (hw : ¬ walletId = "") (hs : ¬ signature = "") (hp : ¬ signPfx = "")
    (hu : getUserByWalletId store walletId = .ok u)
    (hsig : recover (signPfx ++ u.Nonce) signature = walletId) :
    createUser userExpiry recover store now freshNonce freshUserId
        walletId true signature signPfx =
      (.ok { userId := u.UserId, walletId := jsToLower walletId,
             nonce := freshNonce },
       putUser store
         { UserId := u.UserId, WalletId := jsToLower walletId,
           Verified := true, Nonce := freshNonce, CreatedTime := now,
           LastLogin := now, ExpiryTime := now + userExpiry * 86400 }) ∧
    u.WalletId = jsToLower walletId := by
  constructor
  · unfold createUser userExistsByWalletId
    simp [hw, hs, hp, hu, isValidEthSignature, hsig]
  · exact getUserByWalletId_ok_wallet store walletId u hu

/-- C10 witness: a concrete successful re-verification rewrites the record
with `CreatedTime` equal to the call time. -/
theorem createUser_verify_success_rewrite_witness :
    getUserByWalletId
        [{ UserId := "U1", WalletId := "0xaa", Nonce := "n1",
           CreatedTime := 3, LastLogin := 4, Verified := false,
           ExpiryTime := 99 }] "0xaa" =
      .ok { UserId := "U1", WalletId := "0xaa", Nonce := "n1",
            CreatedTime := 3, LastLogin := 4, Verified := false,
            ExpiryTime := 99 } ∧
    createUser 36500 (fun _ _ => "0xaa")
        [{ UserId := "U1", WalletId := "0xaa", Nonce := "n1",
           CreatedTime := 3, LastLogin := 4, Verified := false,
           ExpiryTime := 99 }] 7 "n2" "U2" "0xaa" true "sig" "sign:" =
      (.ok { userId := "U1", walletId := jsToLower "0xaa", nonce := "n2" },
       putUser
         [{ UserId := "U1", WalletId := "0xaa", Nonce := "n1",
            CreatedTime := 3, LastLogin := 4, Verified := false,
            ExpiryTime := 99 }]
         { UserId := "U1", WalletId := jsToLower "0xaa", Verified := true,
           Nonce := "n2", CreatedTime := 7, LastLogin := 7,
           ExpiryTime := 7 + 36500 * 86400 }) :=
  ⟨rfl,
   (createUser_verify_success_rewrite 36500 (fun _ _ => "0xaa")
      [{ UserId := "U1", WalletId := "0xaa", Nonce := "n1",
         CreatedTime := 3, LastLogin := 4, Verified := false,
         ExpiryTime := 99 }] 7 "n2" "U2" "0xaa" "sig" "sign:"
      { UserId := "U1", WalletId := "0xaa", Nonce := "n1",
        CreatedTime := 3, LastLogin := 4, Verified := false,
        ExpiryTime := 99 }
      (by decide) (by decide) (by decide) rfl (by decide)).1⟩

/-- C5 counterexample: the catch blocks of the login, refresh and logout
handlers remap only status 400 to 401; an internal error with status 403
would be surfaced with status 403, not 401 as the claim states. -/
theorem authPath_403_counterexample :
    authPathReturnCode 403 = 403 ∧ ¬ authPathReturnCode 403 = 401 := by
  constructor <;> decide

/-- C5 amended: on the login, refresh and logout paths every failure is
surfaced as the structured envelope with `success=false` and the caller's
requestId; an internal status code 400 is remapped to 401 and every other
status code (401, 403, 500, ...) is preserved; in particular an expired
refresh token and an invalid login signature (both status 400 internally)
surface as 401. -/
theorem authPath_error_mapping
    (cfg : JwtConfig) (now : Nat) (rid : String) (d : JwtData)
    (hrf : d.refresh = true) (hexp : d.exp ≤ now) :
    (∀ e, toApiErrorAuthPath rid e =
      { success := false, statusCode := authPathReturnCode e.statusCode,
        message := e.message, requestId := rid }) ∧
    authPathReturnCode 400 = 401 ∧ authPathReturnCode 401 = 401 ∧
    authPathReturnCode 500 = 500 ∧
    (∀ c, ¬ c = 400 → authPathReturnCode c = c) ∧
    refreshHandler cfg now (some { token := some (.signed d) }) rid =
      .error { success := false, statusCode := 401,
               message := "Authentication token has expired",
               requestId := rid } ∧
    (∀ (noncePfx : String) (recover : String → String → String)
        (store : List User) (fn walletId sig : String) (u : User),
      ¬ noncePfx = "" → ¬ walletId = "" → ¬ sig = "" →
      getUserByWalletId store walletId = .ok u → u.Verified = true →
      ¬ recover (noncePfx ++ u.Nonce) sig = walletId →
      loginHandler noncePfx cfg recover store now fn walletId sig rid =
        .error { success := false, statusCode := 401,
                 message := "Validation Error: Invalid signature, access denied",
                 requestId := rid }) := by
  refine ⟨fun e => rfl, rfl, rfl, rfl, ?_, ?_, ?_⟩
  · intro c hc
    simp [authPathReturnCode, hc]
  · simp [refreshHandler, validateRefreshCookie, verifyJwt, hexp,
          toApiErrorAuthPath, authPathReturnCode, Err.statusCode, Err.message]
  · intro noncePfx recover store fn walletId sig u hn hw hs hu hv hsig
    unfold loginHandler
    simp [hn, hw, hs, hu, hv, isValidEthSignature, hsig,
          toApiErrorAuthPath, authPathReturnCode, Err.statusCode, Err.message]

/-- C5 witness: a concrete expired refresh token surfaces as 401 on the
refresh path. -/
theorem authPath_error_mapping_witness :
    ({ iss := "i", sub := "u", admin := false, refresh := true,
       iat := 0, exp := 3 } : JwtData).refresh = true ∧
    ({ iss := "i", sub := "u", admin := false, refresh := true,
       iat := 0, exp := 3 } : JwtData).exp ≤ 5 ∧
    refreshHandler { iss := "i", refreshTime := 60, authTime := 5 } 5
        (some { token := some (.signed
          { iss := "i", sub := "u", admin := false, refresh := true,
            iat := 0, exp := 3 }) }) "r" =
      .error { success := false, statusCode := 401,
               message := "Authentication token has expired",
               requestId := "r" } :=
  ⟨rfl, by decide,
   (authPath_error_mapping { iss := "i", refreshTime := 60, authTime := 5 }
      5 "r"
      { iss := "i", sub := "u", admin := false, refresh := true,
        iat := 0, exp := 3 } rfl (by decide)).2.2.2.2.2.1⟩

/-- C8 counterexample: two sequential refresh calls presenting the same
first-issued cookie in the same clock second both succeed, but the second
auth token's `exp` equals the first rather than being strictly greater. -/
theorem refresh_same_second_counterexample :
    (refreshHandler { iss := "i", refreshTime := 60, authTime := 5 } 10
        (some { token := some (.signed (createJwt
          { iss := "i", refreshTime := 60, authTime := 5 } 0 "u" false true)) })
        "r1").map (fun r => r.authToken.exp) = .ok 310 ∧
    (refreshHandler { iss := "i", refreshTime := 60, authTime := 5 } 10
        (some { token := some (.signed (createJwt
          { iss := "i", refreshTime := 60, authTime := 5 } 0 "u" false true)) })
        "r2").map (fun r => r.authToken.exp) = .ok 310 ∧
    ¬ (310 : Nat) > 310 := by
  refine ⟨rfl, rfl, by decide⟩

/-- C8 amended: two sequential refresh calls with the same valid, unexpired
refresh cookie both succeed (the old cookie is not single-use), the second
auth token's `exp` is greater than or equal to the first's, and it is
strictly greater exactly when the second call's clock reading (at second
granularity) is strictly later. -/
theorem refresh_rotation_amended (cfg : JwtConfig) (d : JwtData)
    (t1 t2 : Nat) (rid1 rid2 : String)
    (hrf : d.refresh = true) (hsub : ¬ d.sub = "")
    (h1 : t1 < d.exp) (h2 : t2 < d.exp) (h12 : t1 ≤ t2) :
    (refreshHandler cfg t1 (some { token := some (.signed d) }) rid1).map
        (fun r => r.authToken.exp) = .ok (t1 + cfg.authTime * 60) ∧
    (refreshHandler cfg t2 (some { token := some (.signed d) }) rid2).map
        (fun r => r.authToken.exp) = .ok (t2 + cfg.authTime * 60) ∧
    t1 + cfg.authTime * 60 ≤ t2 + cfg.authTime * 60 ∧
    (t1 < t2 → t1 + cfg.authTime * 60 < t2 + cfg.authTime * 60) := by
  have e1 : ¬ d.exp ≤ t1 := by omega
  have e2 : ¬ d.exp ≤ t2 := by omega
  refine ⟨?_, ?_, by omega, fun h => by omega⟩ <;>
    simp [refreshHandler, validateRefreshCookie, verifyJwt, createAuthToken,
          createRefreshCookie, createRefreshToken, createJwt, expTime,
          Except.map, hrf, hsub, e1, e2]

/-- C8 amended witness: a strictly later second call yields a strictly
later auth-token expiry. -/
theorem refresh_rotation_amended_witness :
    ({ iss := "i", sub := "u", admin := false, refresh := true,
       iat := 0, exp := 3600 } : JwtData).refresh = true ∧
    (refreshHandler { iss := "i", refreshTime := 60, authTime := 5 } 10
        (some { token := some (.signed
          { iss := "i", sub := "u", admin := false, refresh := true,
            iat := 0, exp := 3600 }) }) "r1").map
        (fun r => r.authToken.exp) = .ok (10 + 5 * 60) ∧
    (refreshHandler { iss := "i", refreshTime := 60, authTime := 5 } 20
        (some { token := some (.signed
          { iss := "i", sub := "u", admin := false, refresh := true,
            iat := 0, exp := 3600 }) }) "r2").map
        (fun r => r.authToken.exp) = .ok (20 + 5 * 60) ∧
    (10 + 5 * 60 : Nat) < 20 + 5 * 60 :=
  ⟨rfl,
   (refresh_rotation_amended { iss := "i", refreshTime := 60, authTime := 5 }
      { iss := "i", sub := "u", admin := false, refresh := true,
        iat := 0, exp := 3600 } 10 20 "r1" "r2" rfl (by decide)
      (by decide) (by decide) (by decide)).1,
   (refresh_rotation_amended { iss := "i", refreshTime := 60, authTime := 5 }
      { iss := "i", sub := "u", admin := false, refresh := true,
        iat := 0, exp := 3600 } 10 20 "r1" "r2" rfl (by decide)
      (by decide) (by decide) (by decide)).2.1,
   (refresh_rotation_amended { iss := "i", refreshTime := 60, authTime := 5 }
      { iss := "i", sub := "u", admin := false, refresh := true,
        iat := 0, exp := 3600 } 10 20 "r1" "r2" rfl (by decide)
      (by decide) (by decide) (by decide)).2.2.2 (by decide)⟩
